import Mathlib

/-!
Verification development for rpmdistro-gitoverlay (src/rdgo/git.py and
src/rdgo/task_resolve.py).  The Python functions are embedded shallowly:
pure string manipulation becomes Lean functions over String / List Char,
process-fatal errors (fatal, assert, raise) become Except / Option, and
the stateful mirroring and snapshot-commit logic becomes explicit state
passing.
-/

deriving instance DecidableEq for Except

namespace Rdgo

/-! ### String helpers mirroring Python str.find / str.rfind -/

/-- Index of the first occurrence of character c in l, counting from i;
Python s.find(c, i) restricted to a single character. -/
def findCharAux (c : Char) : List Char → Nat → Option Nat
  | [], _ => none
  | x :: xs, i => if x = c then some i else findCharAux c xs (i + 1)

/-- Python s.find(c, start): first index of c at or after start (the
list is the whole string; drop start positions first); none for -1. -/
def findCharFrom (l : List Char) (c : Char) (start : Nat) : Option Nat :=
  findCharAux c (l.drop start) start

/-- Auxiliary for rfind: last index of c, scanning left to right. -/
def rfindCharAux (c : Char) : List Char → Nat → Option Nat → Option Nat
  | [], _, acc => acc
  | x :: xs, i, acc => rfindCharAux c xs (i + 1) (if x = c then some i else acc)

/-- Python s.rfind(c): index of the last occurrence of c, none for -1. -/
def rfindChar (l : List Char) (c : Char) : Option Nat :=
  rfindCharAux c l 0 none

/-- Whether the first list is a prefix of the second (Boolean). -/
def listIsPrefix : List Char → List Char → Bool
  | [], _ => true
  | _ :: _, [] => false
  | x :: xs, y :: ys => x = y && listIsPrefix xs ys

/-- Auxiliary for substring find: first index where sub starts. -/
def findSubAux (sub : List Char) : List Char → Nat → Option Nat
  | [], i => if sub.isEmpty then some i else none
  | l@(_ :: xs), i => if listIsPrefix sub l then some i else findSubAux sub xs (i + 1)

/-- Python s.find(sub): index of the first occurrence of substring sub. -/
def findSub (l sub : List Char) : Option Nat :=
  findSubAux sub l 0

/-! ### git.py: make_absolute_url (lines 36-55)

Embeds the function exactly as written in the source.  Note that the
source computes `parent_path = parent[first_slash:]` (line 45) and then
never uses it: the while loop strips segments from the full `parent`
(scheme and host included) with `parent.rfind('/')`, and line 52
prepends `parent[0:first_slash]` to that full remainder.  The embedding
reproduces this behaviour faithfully; the dead `parent_path` binding is
omitted since it cannot influence the result. -/

/-- The while loop of make_absolute_url: strip one trailing path segment
of parent for each leading ../ of relpath; Python rfind failing (-1) is
the fatal branch. -/
def stripDotDot : List Char → List Char → Except String (List Char × List Char)
  | parent, '.' :: '.' :: '/' :: rest =>
    match rfindChar parent '/' with
    | none => Except.error "Relative submodule path is too long for parent"
    | some i => stripDotDot (parent.take i) rest
  | parent, rel => Except.ok (parent, rel)

/-- git.py make_absolute_url(parent, relpath): resolve a relative
submodule URL against the parent URL.  Errors model fatal() and failed
asserts (both abort the process). -/
def make_absolute_url (parentS relpathS : String) : Except String String :=
  let parent0 := parentS.data
  let parent1 := if parent0.getLast? = some '/' then parent0.dropLast else parent0
  match findSub parent1 [':', '/', '/'] with
  | none => Except.error "AssertionError: method_index != -1"
  | some methodIndex =>
    match findCharFrom parent1 '/' (methodIndex + 3) with
    | none => Except.error "AssertionError: first_slash != -1"
    | some firstSlash =>
      match stripDotDot parent1 relpathS.data with
      | Except.error e => Except.error e
      | Except.ok (p, rel) =>
        let p2 := p.take firstSlash ++ p
        if rel.isEmpty then Except.ok (String.mk p2)
        else Except.ok (String.mk (p2 ++ '/' :: rel))

/-! ### git.py: describe parsing (lines 200-209)

GitMirror.describe runs `git describe --long --abbrev=40 --always` and
parses the resulting string; the embedding covers the parsing step
(lines 204-209).  Python rfind of the two-character substring "-g" is
implemented structurally: rfindDashG returns the text before and after
the last occurrence of "-g". -/

/-- Split a character list at the last occurrence of the two-character
sequence "-g"; none when there is no occurrence. -/
def rfindDashG : List Char → Option (List Char × List Char)
  | [] => none
  | c :: rest =>
    match rfindDashG rest with
    | some (a, b) => some (c :: a, b)
    | none =>
      if c = '-' ∧ rest.head? = some 'g' then some (([] : List Char), rest.tail)
      else none

/-- git.py describe, parsing step: a 40-character description is a bare
commit hash (no tag); otherwise split at the last "-g" (the failed
assert rgdash >= 0 is modelled as none). -/
def describe_parse (description : String) : Option (Option String × String) :=
  if description.length = 40 then some (none, description)
  else
    match rfindDashG description.data with
    | none => none
    | some (a, b) => some (some (String.mk a), String.mk b)

/-! ### Lemmas about rfindDashG -/

/-- When rfindDashG finds a split, the input is the prefix, the two
characters of "-g", then the suffix. -/
theorem rfindDashG_append : ∀ (l a b : List Char),
    rfindDashG l = some (a, b) → l = a ++ '-' :: 'g' :: b := by
  intro l
  induction l with
  | nil => intro a b h; simp [rfindDashG] at h
  | cons c rest ih =>
    intro a b h
    rw [rfindDashG] at h
    cases h1 : rfindDashG rest with
    | some p =>
      obtain ⟨a1, b1⟩ := p
      rw [h1] at h
      injection h with h2
      injection h2 with ha hb
      subst ha; subst hb
      simp [ih a1 b1 h1]
    | none =>
      rw [h1] at h
      by_cases hc : c = '-' ∧ rest.head? = some 'g'
      · rw [if_pos hc] at h
        injection h with h2
        injection h2 with ha hb
        subst ha; subst hb
        obtain ⟨hdash, hhead⟩ := hc
        subst hdash
        cases rest with
        | nil => simp at hhead
        | cons r rs =>
          simp at hhead
          subst hhead
          simp
      · rw [if_neg hc] at h
        simp at h

/-- The suffix returned by rfindDashG contains no further "-g": the
split is at the last occurrence. -/
theorem rfindDashG_last : ∀ (l a b : List Char),
    rfindDashG l = some (a, b) → rfindDashG b = none := by
  intro l
  induction l with
  | nil => intro a b h; simp [rfindDashG] at h
  | cons c rest ih =>
    intro a b h
    rw [rfindDashG] at h
    cases h1 : rfindDashG rest with
    | some p =>
      obtain ⟨a1, b1⟩ := p
      rw [h1] at h
      injection h with h2
      injection h2 with ha hb
      subst hb
      exact ih a1 b1 h1
    | none =>
      rw [h1] at h
      by_cases hc : c = '-' ∧ rest.head? = some 'g'
      · rw [if_pos hc] at h
        injection h with h2
        injection h2 with ha hb
        subst hb
        obtain ⟨_, hhead⟩ := hc
        cases rest with
        | nil => simp at hhead
        | cons r rs =>
          simp at hhead
          subst hhead
          rw [rfindDashG] at h1
          cases h2 : rfindDashG rs with
          | some p =>
            obtain ⟨a2, b2⟩ := p
            rw [h2] at h1
            simp at h1
          | none => simpa using h2
      · rw [if_neg hc] at h
        simp at h

/-! ### Claim theorems about make_absolute_url and describe -/

/-- C1: the claim states that make_absolute_url resolves ../other
against parent https://example.org/grp/repo to https://example.org/other
and ../../x against https://example.org/a/b/c to https://example.org/x.
The code instead prepends the scheme-and-host prefix to the full
truncated parent URL (scheme and host included), duplicating them: line
52 of git.py uses the whole parent where the intended path-only
remainder (the unused parent_path of line 45) was meant.  This theorem
evaluates the code at the claimed inputs, exhibiting the divergence. -/
theorem claim_C1_make_absolute_url_bug :
    make_absolute_url "https://example.org/grp/repo" "../other"
      = Except.ok "https://example.orghttps://example.org/grp/other" ∧
    make_absolute_url "https://example.org/a/b/c" "../../x"
      = Except.ok "https://example.orghttps://example.org/a/x" ∧
    make_absolute_url "https://example.org/grp/repo" "../other"
      ≠ Except.ok "https://example.org/other" ∧
    make_absolute_url "https://example.org/a/b/c" "../../x"
      ≠ Except.ok "https://example.org/x" := by
  refine ⟨by decide, by decide, by decide, by decide⟩

/-- C8: the claim states that resolving ../../x against parent
https://example.org/repo (more ../ segments than addressable path
segments) is a fatal MirrorError.  Because the loop in make_absolute_url
strips segments from the full parent URL (scheme and host included)
rather than from its path, it happily walks into the scheme and returns
a garbage URL instead of hitting the fatal branch.  This theorem
evaluates the code at the claimed failing input. -/
theorem claim_C8_walk_above_parent_not_fatal :
    make_absolute_url "https://example.org/repo" "../../x"
      = Except.ok "https:/https://x" := by decide

/-- C3 counterexample: the claim says the description string
v1.2.0-3-g followed by a 40-character hash parses to tag v1.2.0 with
commit description 3-g followed by the hash; the code instead splits at
the last "-g", returning first component v1.2.0-3 and second component
the bare hash. -/
theorem claim_C3_counterexample :
    describe_parse "v1.2.0-3-g0123456789abcdef0123456789abcdef01234567"
      ≠ some (some "v1.2.0",
              "3-g0123456789abcdef0123456789abcdef01234567") := by decide

/-- C3 (amended): describe returns (null, fullHash) whenever the
description is exactly 40 characters; otherwise it splits at the last
occurrence of the two-character sequence "-g" (the suffix returned
contains no further "-g"), so that v1.2.0-3-g followed by a 40-character
hash parses to first component v1.2.0-3 (tag plus commit count) and
second component the bare hash. -/
theorem claim_C3_describe_split :
    (∀ s : String, s.length = 40 → describe_parse s = some (none, s)) ∧
    (∀ (s a b : String), describe_parse s = some (some a, b) →
      s.length ≠ 40 ∧ s.data = a.data ++ '-' :: 'g' :: b.data ∧
        rfindDashG b.data = none) ∧
    describe_parse "v1.2.0-3-g0123456789abcdef0123456789abcdef01234567"
      = some (some "v1.2.0-3", "0123456789abcdef0123456789abcdef01234567") := by
  refine ⟨?_, ?_, by decide⟩
  · intro s h
    simp [describe_parse, h]
  · intro s a b h
    rw [describe_parse] at h
    by_cases h40 : s.length = 40
    · rw [if_pos h40] at h
      simp at h
    · rw [if_neg h40] at h
      cases h1 : rfindDashG s.data with
      | none => rw [h1] at h; simp at h
      | some p =>
        obtain ⟨a1, b1⟩ := p
        rw [h1] at h
        injection h with h2
        injection h2 with ha hb
        injection ha with ha
        subst ha; subst hb
        refine ⟨h40, ?_, ?_⟩
        · simpa using rfindDashG_append s.data a1 b1 h1
        · simpa using rfindDashG_last s.data a1 b1 h1

/-- Witness for claim_C3_describe_split: instantiates the two
hypothetical components at concrete inputs. -/
theorem claim_C3_describe_split_witness :
    describe_parse "0123456789abcdef0123456789abcdef01234567"
      = some (none, "0123456789abcdef0123456789abcdef01234567") ∧
    (("v1.2.0-3-g0123456789abcdef0123456789abcdef01234567" : String).length ≠ 40 ∧
      ("v1.2.0-3-g0123456789abcdef0123456789abcdef01234567" : String).data
        = ("v1.2.0-3" : String).data ++ '-' :: 'g' ::
            ("0123456789abcdef0123456789abcdef01234567" : String).data ∧
      rfindDashG ("0123456789abcdef0123456789abcdef01234567" : String).data = none) :=
  ⟨claim_C3_describe_split.1 "0123456789abcdef0123456789abcdef01234567" (by decide),
   claim_C3_describe_split.2.1 "v1.2.0-3-g0123456789abcdef0123456789abcdef01234567"
     "v1.2.0-3" "0123456789abcdef0123456789abcdef01234567" (by decide)⟩

/-! ### task_resolve.py: component records

Declarative component and distgit records are loosely-typed YAML dicts
in the source; the embedding gives them the string-valued fields the
code reads, each optional (absent key = none). -/

structure Distgit where
  name : Option String := none
  src : Option String := none
  freeze : Option String := none
  tag : Option String := none
  branch : Option String := none
  patches : Option String := none
deriving DecidableEq

structure Component where
  name : Option String := none
  pkgname : Option String := none
  src : Option String := none
  spec : Option String := none
  freeze : Option String := none
  tag : Option String := none
  branch : Option String := none
  distgit : Option Distgit := none
deriving DecidableEq

/-- dict.get for the ref-selection keys of a component record. -/
def Component.get (c : Component) : String → Option String
  | "name" => c.name
  | "pkgname" => c.pkgname
  | "src" => c.src
  | "spec" => c.spec
  | "freeze" => c.freeze
  | "tag" => c.tag
  | "branch" => c.branch
  | _ => none

/-- dict.get for the ref-selection keys of a distgit record. -/
def Distgit.get (d : Distgit) : String → Option String
  | "name" => d.name
  | "src" => d.src
  | "freeze" => d.freeze
  | "tag" => d.tag
  | "branch" => d.branch
  | "patches" => d.patches
  | _ => none

/-- task_resolve.py TaskResolve._one_of_keys (lines 67-75): the value of
the first key in the list that is present in the dict. -/
def one_of_keys (get : String → Option String) : List String → Option String
  | [] => none
  | k :: ks =>
    match get k with
    | some v => some v
    | none => one_of_keys get ks

/-- The ref selection performed at task_resolve.py line 306 for a
component. -/
def component_ref (c : Component) : Option String :=
  one_of_keys c.get ["freeze", "branch", "tag"]

/-- The ref selection performed at task_resolve.py line 315 for a
distgit record. -/
def distgit_ref (d : Distgit) : Option String :=
  one_of_keys d.get ["freeze", "branch", "tag"]

/-- C5 counterexample: the claim says a tag value wins over a branch
value; for a component carrying both, the code selects the branch
(key order at the call site is freeze, branch, tag). -/
theorem claim_C5_counterexample :
    component_ref { branch := some "stable", tag := some "v1.0" } = some "stable" ∧
    (some "stable" : Option String) ≠ some "v1.0" := by
  exact ⟨rfl, by decide⟩

/-- C5 (amended): the ref passed to mirror is selected by the
precedence order freeze, then branch, then tag — a freeze value wins
over a branch value, and a branch value wins over a tag value — for
components and distgit records alike. -/
theorem claim_C5_ref_precedence (c : Component) (d : Distgit) :
    component_ref c = (c.freeze.orElse fun _ => (c.branch.orElse fun _ => c.tag)) ∧
    distgit_ref d = (d.freeze.orElse fun _ => (d.branch.orElse fun _ => d.tag)) := by
  constructor
  · obtain ⟨n, pk, s, sp, fz, tg, br, dg⟩ := c
    cases fz <;> cases br <;> cases tg <;> rfl
  · obtain ⟨n, s, fz, tg, br, pa⟩ := d
    cases fz <;> cases br <;> cases tg <;> rfl

/-! ### task_resolve.py: version/release computation -/

/-- Replace every occurrence of character a by character b; Python
s.replace for one-character arguments. -/
def replaceChar (a b : Char) (l : List Char) : List Char :=
  l.map fun c => if c = a then b else c

/-- task_resolve.py TaskResolve._strip_all_prefixes (lines 130-134):
strip each listed prefix in order, each at most once. -/
def strip_all_prefixes (s : List Char) : List (List Char) → List Char
  | [] => s
  | p :: rest =>
    strip_all_prefixes (if listIsPrefix p s then s.drop p.length else s) rest

/-- One single prefix-stripping step, used to state how
strip_all_prefixes composes. -/
def stripOnce (p s : List Char) : List Char :=
  if listIsPrefix p s then s.drop p.length else s

/-- task_resolve.py TaskResolve._rpm_verrel (lines 136-145): compute
the (version, release) pair from the upstream tag, the upstream
commit-hash description and the distgit description. -/
def rpm_verrel (pkgname : String) (upstream_tag upstream_rev distgit_desc : Option String) :
    String × String :=
  let v0 := (upstream_tag.getD "0").data
  let v1 := strip_all_prefixes v0 [['v'], pkgname.data ++ ['-']]
  let v2 := replaceChar '-' '.' v1
  let g0 := (upstream_rev.getD "").data
  let g1 :=
    match distgit_desc with
    | none => g0
    | some d => (if g0.isEmpty then g0 else g0 ++ ['.']) ++ replaceChar '-' '.' d.data
  (String.mk v2, String.mk g1)

/-- task_resolve.py TaskResolve._ensure_srpm (lines 212-236), reduced
to its version/release data flow: destructure each describe result into
(tag, rev), build the distgit description by joining tag and rev with a
dash when a tag exists, and call _rpm_verrel with the upstream tag, the
bare upstream rev and the distgit description. -/
def ensure_srpm_verrel (pkgname : String)
    (upstream dg : Option (Option String × String)) : String × String :=
  let ut : Option String := upstream.bind fun p => p.1
  let ur : Option String := upstream.map fun p => p.2
  let dd : Option String := dg.map fun p =>
    match p.1 with
    | some t => t ++ "-" ++ p.2
    | none => p.2
  rpm_verrel pkgname ut ur dd

/-- C10: in version computation the prefixes are stripped sequentially
in the fixed order v first, then pkgname-dash, each at most once; for
pkgname vim with tag vim-3.0 the leading v of the pkgname is stripped
first, the pkgname prefix then no longer matches, and the version is
im.3.0 rather than 3.0. -/
theorem claim_C10_strip_order :
    (∀ s p1 p2 : List Char, strip_all_prefixes s [p1, p2] = stripOnce p2 (stripOnce p1 s)) ∧
    (rpm_verrel "vim" (some "vim-3.0") none none).1 = "im.3.0" ∧
    (rpm_verrel "vim" (some "vim-3.0") none none).1 ≠ "3.0" := by
  refine ⟨fun s p1 p2 => rfl, by decide, by decide⟩

/-- C6 counterexample: the claim says that for a component with a
tagged upstream and a distgit repository the release is the distgit
description prefixed by the upstream tag-plus-hash descriptor; the code
prefixes the bare upstream hash only.  Concrete describe results:
upstream (v1.2.0-3, hash A), distgit (foo-7, hash B). -/
theorem claim_C6_counterexample :
    (ensure_srpm_verrel "foo"
        (some (some "v1.2.0-3", "0123456789abcdef0123456789abcdef01234567"))
        (some (some "foo-7", "fedcba9876543210fedcba9876543210fedcba98"))).2
      = "0123456789abcdef0123456789abcdef01234567.foo.7.fedcba9876543210fedcba9876543210fedcba98" ∧
    (ensure_srpm_verrel "foo"
        (some (some "v1.2.0-3", "0123456789abcdef0123456789abcdef01234567"))
        (some (some "foo-7", "fedcba9876543210fedcba9876543210fedcba98"))).2
      ≠ "v1.2.0.3.0123456789abcdef0123456789abcdef01234567.foo.7.fedcba9876543210fedcba9876543210fedcba98" := by
  exact ⟨by decide, by decide⟩

/-- C6 (amended): for a component with an upstream repository (tag
reachable, nonempty hash description) and a distgit repository, the
release is the distgit description — with dashes replaced by dots —
prefixed by the bare upstream commit hash and a dot; the upstream tag
does not enter the release. -/
theorem claim_C6_release (pk t urev dd dtag drev : String) (h : urev ≠ "") :
    (rpm_verrel pk (some t) (some urev) (some dd)).2
      = String.mk (urev.data ++ '.' :: replaceChar '-' '.' dd.data) ∧
    (ensure_srpm_verrel pk (some (some t, urev)) (some (some dtag, drev))).2
      = String.mk (urev.data ++ '.' :: replaceChar '-' '.' (dtag ++ "-" ++ drev).data) := by
  have hdata : urev.data.isEmpty = false := by
    cases hu : urev.data with
    | nil => exact absurd (by cases urev; simp at hu; simp [hu]) h
    | cons x xs => rfl
  constructor
  · simp [rpm_verrel, hdata]
  · simp [ensure_srpm_verrel, rpm_verrel, hdata]

/-- Witness for claim_C6_release at concrete strings. -/
theorem claim_C6_release_witness :
    (rpm_verrel "foo" (some "v1.2.0-3") (some "abc123") (some "foo-7-def456")).2
      = String.mk (("abc123" : String).data ++ '.' :: replaceChar '-' '.' ("foo-7-def456" : String).data) ∧
    (ensure_srpm_verrel "foo" (some (some "v1.2.0-3", "abc123")) (some (some "foo-7", "def456"))).2
      = String.mk (("abc123" : String).data ++ '.' :: replaceChar '-' '.' (("foo-7" : String) ++ "-" ++ "def456").data) :=
  claim_C6_release "foo" "v1.2.0-3" "abc123" "foo-7-def456" "foo-7" "def456" (by decide)

/-! ### task_resolve.py: component expansion (lines 41-58 and 77-122) -/

/-- Errors raised during expansion: fatal() calls model ConfigError,
raise ValueError models the unknown-spec-type branch. -/
inductive ExpandErr where
  | config (msg : String)
  | value (msg : String)
deriving DecidableEq

/-- task_resolve.py TaskResolve._expand_srckey (lines 49-58): rewrite
an alias-name:rest value through the first matching configured alias. -/
def expand_srckey (aliases : List (String × String)) (val : String) : String :=
  match aliases with
  | [] => val
  | (n, u) :: rest =>
    let namec := n.data ++ [':']
    if listIsPrefix namec val.data then String.mk (u.data ++ val.data.drop namec.length)
    else expand_srckey rest val

/-- Whether a character list ends with the given suffix. -/
def listEndsWith (l suf : List Char) : Bool :=
  listIsPrefix suf.reverse l.reverse

/-- task_resolve.py TaskResolve._url_to_projname (lines 41-47): the
text after the last colon or slash, with a trailing .git stripped. -/
def url_to_projname (url : String) : String :=
  let l := url.data
  let rcolon : Int := match rfindChar l ':' with | some i => (i : Int) | none => -1
  let rslash : Int := match rfindChar l '/' with | some i => (i : Int) | none => -1
  let basename := l.drop ((max rcolon rslash) + 1).toNat
  if listEndsWith basename ['.', 'g', 'i', 't'] then
    String.mk (basename.take (basename.length - 4))
  else String.mk basename

/-- The tail of _expand_component (lines 105-122): pkgname default,
tag/branch defaulting, and distgit record completion for non-internal
components.  The name argument is the local variable name of the
source: the ensured component name in the src branch, the distgit name
in the distgit-only branch. -/
def expand_tail (aliases : List (String × String)) (pfx : String)
    (c : Component) (name : String) : Component :=
  let c1 := if c.tag = none then { c with branch := some (c.branch.getD "master") } else c
  if c1.spec = some "internal" then
    { c1 with pkgname := some (c1.pkgname.getD name) }
  else
    match c1.distgit with
    | some d =>
      let pkgdef := d.name.getD name
      let d1 := { d with name := some pkgdef }
      let d2 := { d1 with
        src := some (expand_srckey aliases (d1.src.getD (pfx ++ ":" ++ pkgdef))) }
      let d3 := if d2.tag = none then { d2 with branch := some (d2.branch.getD "master") } else d2
      { c1 with distgit := some d3, pkgname := some (c1.pkgname.getD pkgdef) }
    | none =>
      -- Unreachable from expand_component: the non-internal branches
      -- below always ensure a distgit record first.
      { c1 with pkgname := some (c1.pkgname.getD name) }

/-- task_resolve.py TaskResolve._expand_component (lines 77-122):
normalize one component record, failing on a missing src key, an
unknown spec type, or a distgit-only component without a named distgit
record. -/
def expand_component (aliases : List (String × String)) (pfx : String)
    (c : Component) : Except ExpandErr Component :=
  match c.src with
  | none => Except.error (ExpandErr.config "Component {0} is missing src")
  | some src =>
    if c.spec = none ∨ c.spec = some "internal" then
      if src = "distgit" then
        match c.distgit with
        | none => Except.error (ExpandErr.config "Component {0} is missing distgit")
        | some d =>
          match d.name with
          | none => Except.error (ExpandErr.config "Component {0} is missing distgit/name")
          | some dn =>
            let c1 : Component := { c with src := none, name := some (c.name.getD dn) }
            Except.ok (expand_tail aliases pfx c1 dn)
      else
        let src1 := expand_srckey aliases src
        let name := c.name.getD (url_to_projname src1)
        let c1 : Component := { c with src := some src1, name := some name }
        let c2 : Component :=
          if c1.spec = some "internal" then c1
          else { c1 with distgit := some (c1.distgit.getD {}) }
        Except.ok (expand_tail aliases pfx c2 name)
    else Except.error (ExpandErr.value "Unknown spec type")

/-- Whether an expansion result is a ConfigError (a fatal() call). -/
def isConfigErr : Except ExpandErr Component → Bool
  | Except.error (ExpandErr.config _) => true
  | _ => false

/-- C7 counterexample: a component supplying no src key but a usable
distgit name fails with a ConfigError, though the claim says every
component supplying at least one of src or a named distgit record
expands without error. -/
theorem claim_C7_counterexample :
    expand_component [] "pkg" { distgit := some { name := some "foo" } }
      = Except.error (ExpandErr.config "Component {0} is missing src") := by
  rfl

/-- C7 (amended): for a component whose spec key is valid (absent or
internal), expansion fails with a ConfigError exactly when the src key
is absent, or src is the literal distgit and the component supplies no
distgit record with a name; a distgit-only component must declare src
as the literal string distgit. -/
theorem claim_C7_config_error (aliases : List (String × String)) (pfx : String)
    (c : Component) (h : c.spec = none ∨ c.spec = some "internal") :
    isConfigErr (expand_component aliases pfx c) = true ↔
      (c.src = none ∨
        (c.src = some "distgit" ∧ (c.distgit.bind fun d => d.name) = none)) := by
  obtain ⟨n, pk, s, sp, fz, tg, br, dg⟩ := c
  simp only at h ⊢
  cases s with
  | none => simp [expand_component, isConfigErr]
  | some src =>
    by_cases hd : src = "distgit"
    · subst hd
      cases dg with
      | none => simp [expand_component, isConfigErr, h]
      | some d =>
        cases hn : d.name with
        | none => simp [expand_component, isConfigErr, h, hn]
        | some dn => simp [expand_component, isConfigErr, h, hn]
    · simp [expand_component, isConfigErr, h, hd]

/-- Witness for claim_C7_config_error: both directions at concrete
components — a distgit-only component declared via src distgit with a
named distgit expands, one without a name fails. -/
theorem claim_C7_config_error_witness :
    (isConfigErr (expand_component [] "pkg"
        { src := some "distgit", distgit := some { name := some "foo" } }) = true ↔
      ((some "distgit" : Option String) = none ∨
        ((some "distgit" : Option String) = some "distgit" ∧
          ((some { name := some "foo" } : Option Distgit).bind fun d => d.name) = none))) :=
  claim_C7_config_error [] "pkg"
    { src := some "distgit", distgit := some { name := some "foo" } } (Or.inl rfl)

/-- C9 counterexample: a component with an upstream URL (derived name
proj) and a distgit record explicitly named other, without explicit
pkgname, expands with pkgname other, not the derived name proj. -/
theorem claim_C9_counterexample :
    ((expand_component [] "pkg"
        { src := some "https://x/y/proj", distgit := some { name := some "other" } }).map
      fun r => (r.name, r.pkgname))
      = Except.ok (some "proj", some "other") ∧
    (some "other" : Option String) ≠ some "proj" := by
  exact ⟨by decide, by decide⟩

/-- C9 (amended): for an expanded component without explicit pkgname,
the resulting pkgname is — for a non-internal component with an
upstream src (not the literal distgit) — the distgit record's explicit
name when it has one and otherwise the derived name (the explicit
component name, or the name derived from the expanded URL's last path
segment); and — for a distgit-only component (src is the literal
distgit, any valid spec) — the distgit record's name. -/
theorem claim_C9_pkgname_default :
    (∀ (aliases : List (String × String)) (pfx : String) (c : Component) (u : String),
      c.src = some u → u ≠ "distgit" → c.spec = none → c.pkgname = none →
      (expand_component aliases pfx c).map (fun r => r.pkgname)
        = Except.ok (some (((c.distgit.bind fun d => d.name).getD
            (c.name.getD (url_to_projname (expand_srckey aliases u))))))) ∧
    (∀ (aliases : List (String × String)) (pfx : String) (c : Component)
        (d : Distgit) (dn : String),
      c.src = some "distgit" → c.distgit = some d → d.name = some dn →
      c.pkgname = none → (c.spec = none ∨ c.spec = some "internal") →
      (expand_component aliases pfx c).map (fun r => r.pkgname)
        = Except.ok (some dn)) := by
  constructor
  · intro aliases pfx c u hsrc hne hspec hpk
    obtain ⟨n, pk, s, sp, fz, tg, br, dg⟩ := c
    simp only at hsrc hspec hpk
    subst hsrc; subst hspec; subst hpk
    cases dg with
    | none =>
      cases tg <;> simp [expand_component, expand_tail, hne, Except.map]
    | some d =>
      cases hn : d.name with
      | none =>
        cases tg <;> cases d.tag <;> simp [expand_component, expand_tail, hne, hn, Except.map]
      | some dn =>
        cases tg <;> cases d.tag <;> simp [expand_component, expand_tail, hne, hn, Except.map]
  · intro aliases pfx c d dn hsrc hdg hn hpk hspec
    obtain ⟨n, pk, s, sp, fz, tg, br, dg⟩ := c
    simp only at hsrc hdg hpk hspec
    subst hsrc; subst hdg; subst hpk
    rcases hspec with hspec | hspec <;> subst hspec <;>
      cases tg <;> cases d.tag <;>
        simp [expand_component, expand_tail, hn, Except.map]

/-- Witness for claim_C9_pkgname_default: both conjuncts at concrete
components — an upstream component with an explicitly named distgit,
and a distgit-only component. -/
theorem claim_C9_pkgname_default_witness :
    ((expand_component [] "pkg"
        { src := some "https://x/y/proj", distgit := some { name := some "other" } }).map
      (fun r => r.pkgname)
      = Except.ok (some ((((some { name := some "other" } : Option Distgit).bind fun d => d.name).getD
          ((none : Option String).getD
            (url_to_projname (expand_srckey [] "https://x/y/proj"))))))) ∧
    ((expand_component [] "pkg"
        { src := some "distgit", distgit := some { name := some "other" } }).map
      (fun r => r.pkgname)
      = Except.ok (some "other")) :=
  ⟨claim_C9_pkgname_default.1 [] "pkg"
      { src := some "https://x/y/proj", distgit := some { name := some "other" } }
      "https://x/y/proj" rfl (by decide) rfl rfl,
   claim_C9_pkgname_default.2 [] "pkg"
      { src := some "distgit", distgit := some { name := some "other" } }
      { name := some "other" } "other" rfl rfl rfl rfl (Or.inl rfl)⟩

/-! ### task_resolve.py: snapshot commit (run, lines 327-348)

The relevant file-system state is the manifest content of the three
directories the committer touches: snapshot/ (the published manifest),
old-snapshot/ (the backup) and snapshot.tmp/ (staging).  none means the
directory (or the manifest inside it) does not exist. -/

structure SnapState where
  snapshot : Option String
  oldSnapshot : Option String
  tmpSnapshot : Option String
deriving DecidableEq

/-- task_resolve.py run, lines 327-348: write the staged manifest into
the staging directory, remove the old backup, and promote the staging
directory over snapshot/ only when a byte comparison with the published
manifest shows a difference (cmp -s nonzero or snapshot.json absent).
The returned string is the log message; none models the OSError of
os.rename when promotion is required but no snapshot directory exists. -/
def commit_snapshot (st : SnapState) (staged : String) : Option (SnapState × String) :=
  let st1 : SnapState := { st with tmpSnapshot := some staged }
  let st2 : SnapState := { st1 with oldSnapshot := none }
  if st2.snapshot = some staged then
    some ({ st2 with tmpSnapshot := none }, "No changes.")
  else
    match st2.snapshot with
    | none => none
    | some cur =>
      some ({ snapshot := some staged, oldSnapshot := some cur, tmpSnapshot := none },
            "Wrote: snapshot")

/-- C2: when the staged manifest is byte-identical to the published
one, the committer leaves the published snapshot in place untouched,
discards the staging directory and reports no changes (the unconditional
rmrf of the backup directory is visible in the resulting state); when it
differs, the staging directory is promoted to snapshot/ and the
previously published manifest is preserved as the old-snapshot backup. -/
theorem claim_C2_commit (cur staged : String) (old0 tmp0 : Option String) :
    (staged = cur →
      commit_snapshot ⟨some cur, old0, tmp0⟩ staged
        = some (⟨some cur, none, none⟩, "No changes.")) ∧
    (staged ≠ cur →
      commit_snapshot ⟨some cur, old0, tmp0⟩ staged
        = some (⟨some staged, some cur, none⟩, "Wrote: snapshot")) := by
  constructor
  · intro h
    subst h
    simp [commit_snapshot]
  · intro h
    have : ¬ ((some cur : Option String) = some staged) := by
      intro hc
      exact h (Option.some.inj hc).symm
    simp [commit_snapshot, this]

/-- Witness for claim_C2_commit: an identical and a differing staged
manifest at concrete contents. -/
theorem claim_C2_commit_witness :
    commit_snapshot ⟨some "manifest-a", some "backup", some "junk"⟩ "manifest-a"
      = some (⟨some "manifest-a", none, none⟩, "No changes.") ∧
    commit_snapshot ⟨some "manifest-a", some "backup", some "junk"⟩ "manifest-b"
      = some (⟨some "manifest-b", some "manifest-a", none⟩, "Wrote: snapshot") :=
  ⟨(claim_C2_commit "manifest-a" "manifest-a" (some "backup") (some "junk")).1 rfl,
   (claim_C2_commit "manifest-a" "manifest-b" (some "backup") (some "junk")).2 (by decide)⟩

/-! ### git.py: GitMirror.mirror (lines 148-181)

The mirroring engine is embedded as explicit state passing over an
abstract, static remote world: resolve models git rev-parse of a ref in
the (cloned) mirror of a URL, submods models the submodule list
declared at a revision (_list_submodules).  The embedding models runs
with fetch=False (the setting of claim C4): with no fetch and no remote
change, resolution per (url, ref) is a fixed function.  MirrorState
records which mirror directories exist and the submodules-cache-stamp
content per mirror.  mirror returns the resolved revision, the new
state, and the number of submodule enumerations performed (one per
mirror call that misses the cache); fuel bounds the recursion depth and
none models nontermination or a failed rev-parse. -/

structure GitSubmodule where
  checksum : String
  name : String
  url : String

structure GitWorld where
  resolve : String → String → Option String
  submods : String → String → List GitSubmodule

structure MirrorState where
  mirrors : String → Bool
  stamps : String → Option String

/-- git clone --mirror: the mirror directory for url now exists. -/
def cloneMirror (s : MirrorState) (url : String) : MirrorState :=
  { s with mirrors := fun u => if u = url then true else s.mirrors u }

/-- The atomic cache-stamp write (temp file + rename) of lines 178-180. -/
def writeStamp (s : MirrorState) (url rev : String) : MirrorState :=
  { s with stamps := fun u => if u = url then some rev else s.stamps u }

/-- The submodule loop of lines 174-177: mirror each submodule at its
pinned commit in order, threading the state and summing the submodule
enumeration counts. -/
def mirrorList (step : MirrorState → String → String → Option (String × MirrorState × Nat)) :
    MirrorState → List GitSubmodule → Option (MirrorState × Nat)
  | s, [] => some (s, 0)
  | s, m :: ms =>
    match step s m.url m.checksum with
    | none => none
    | some (_, s1, n) =>
      match mirrorList step s1 ms with
      | none => none
      | some (s2, k) => some (s2, n + k)

/-- git.py GitMirror.mirror(url, branch_or_tag, fetch=False): clone the
mirror if absent, resolve the ref, return immediately when the cache
stamp equals the resolved revision, otherwise enumerate submodules at
that revision, recurse into each, and only then write the new stamp. -/
def mirror (w : GitWorld) : Nat → MirrorState → String → String → Option (String × MirrorState × Nat)
  | 0, _, _, _ => none
  | fuel + 1, s, url, ref =>
    let s1 := if s.mirrors url = true then s else cloneMirror s url
    match w.resolve url ref with
    | none => none
    | some rev =>
      if s1.stamps url = some rev then some (rev, s1, 0)
      else
        match mirrorList (fun s2 u r => mirror w fuel s2 u r) s1 (w.submods url rev) with
        | none => none
        | some (s2, n) => some (rev, writeStamp s2 url rev, n + 1)

/-- A successful submodule loop never forgets an existing mirror
directory, provided each step does not. -/
theorem mirrorList_mono (step : MirrorState → String → String → Option (String × MirrorState × Nat))
    (hstep : ∀ s u r out, step s u r = some out → ∀ x, s.mirrors x = true → out.2.1.mirrors x = true) :
    ∀ (ms : List GitSubmodule) (s : MirrorState) (out : MirrorState × Nat),
      mirrorList step s ms = some out → ∀ x, s.mirrors x = true → out.1.mirrors x = true := by
  intro ms
  induction ms with
  | nil =>
    intro s out h x hx
    rw [mirrorList] at h
    injection h with h2
    subst h2
    exact hx
  | cons m ms ih =>
    intro s out h x hx
    rw [mirrorList] at h
    split at h
    · simp at h
    next rev1 s1 n1 heq =>
      split at h
      · simp at h
      next s2 k heq2 =>
        injection h with h3
        subst h3
        exact ih s1 (s2, k) heq2 x (hstep s m.url m.checksum (rev1, s1, n1) heq x hx)

/-- A successful mirror call never forgets an existing mirror
directory. -/
theorem mirror_mono (w : GitWorld) :
    ∀ (fuel : Nat) (s : MirrorState) (url ref : String) (out : String × MirrorState × Nat),
      mirror w fuel s url ref = some out → ∀ x, s.mirrors x = true → out.2.1.mirrors x = true := by
  intro fuel
  induction fuel with
  | zero => intro s url ref out h; rw [mirror] at h; simp at h
  | succ fuel ih =>
    intro s url ref out h x hx
    simp only [mirror] at h
    have hs1x : (if s.mirrors url = true then s else cloneMirror s url).mirrors x = true := by
      by_cases hm : s.mirrors url = true
      · rw [if_pos hm]; exact hx
      · rw [if_neg hm]
        show (if x = url then true else s.mirrors x) = true
        by_cases hxu : x = url
        · rw [if_pos hxu]
        · rw [if_neg hxu]; exact hx
    generalize hgen : (if s.mirrors url = true then s else cloneMirror s url) = s1 at h hs1x
    split at h
    · simp at h
    next rev heq =>
      split at h
      next hst =>
        cases Option.some.inj h
        exact hs1x
      next hst =>
        split at h
        · simp at h
        next s2 n heq2 =>
          cases Option.some.inj h
          exact mirrorList_mono _ (fun a u r o hh => ih a u r o hh) _ _ (s2, n) heq2 x hs1x

/-- After a successful mirror call, the resolved revision is the
world's resolution of the ref, the mirror directory exists, and the
cache stamp holds exactly that revision (the stamp was written only
after the whole submodule walk succeeded, or was already current). -/
theorem mirror_post (w : GitWorld) (fuel : Nat) (s : MirrorState) (url ref rev : String)
    (s' : MirrorState) (n : Nat) (h : mirror w fuel s url ref = some (rev, s', n)) :
    w.resolve url ref = some rev ∧ s'.mirrors url = true ∧ s'.stamps url = some rev := by
  cases fuel with
  | zero => rw [mirror] at h; simp at h
  | succ fuel =>
    simp only [mirror] at h
    have hs1m : (if s.mirrors url = true then s else cloneMirror s url).mirrors url = true := by
      by_cases hm : s.mirrors url = true
      · rw [if_pos hm]; exact hm
      · rw [if_neg hm]
        show (if url = url then true else s.mirrors url) = true
        rw [if_pos rfl]
    generalize hgen : (if s.mirrors url = true then s else cloneMirror s url) = s1 at h hs1m
    split at h
    · simp at h
    next rev0 heq =>
      split at h
      next hst =>
        cases Option.some.inj h
        exact ⟨heq, hs1m, hst⟩
      next hst =>
        split at h
        · simp at h
        next s2 k heq2 =>
          cases Option.some.inj h
          refine ⟨heq, ?_, ?_⟩
          · exact mirrorList_mono _ (fun a u r o hh => mirror_mono w fuel a u r o hh)
              _ _ (s2, k) heq2 url hs1m
          · show (if url = url then some rev else s2.stamps url) = some rev
            rw [if_pos rfl]

/-- C4: after a first successful mirror(url, ref) call (any fuel, all
submodules mirrored and the cache stamp written), a second call with
fetch=false and an unchanged remote returns the identical resolved
revision, performs zero submodule enumerations, and leaves the state
unchanged: the cache stamp recording the fully-mirrored revision
short-circuits the submodule recursion. -/
theorem claim_C4_mirror_idempotent (w : GitWorld) (fuel fuel2 : Nat) (s0 : MirrorState)
    (url ref rev : String) (s1 : MirrorState) (n : Nat)
    (h : mirror w fuel s0 url ref = some (rev, s1, n)) :
    mirror w (fuel2 + 1) s1 url ref = some (rev, s1, 0) := by
  obtain ⟨hres, hmir, hstamp⟩ := mirror_post w fuel s0 url ref rev s1 n h
  simp only [mirror]
  rw [if_pos hmir, hres]
  simp [hstamp]

/-- A one-repository world with no submodules, used as the concrete
witness input. -/
def mirrorWorldEx : GitWorld :=
  { resolve := fun _ _ => some "d34db33f", submods := fun _ _ => [] }

/-- The empty local mirror store. -/
def mirrorStateEx : MirrorState :=
  { mirrors := fun _ => false, stamps := fun _ => none }

/-- The store after the first mirror call of the witness. -/
def mirrorStateEx1 : MirrorState :=
  writeStamp (cloneMirror mirrorStateEx "u") "u" "d34db33f"

/-- Witness for claim_C4_mirror_idempotent: in the concrete one-repo
world, the first call clones, walks zero submodules and stamps; the
second call returns the same revision with zero submodule
enumerations. -/
theorem claim_C4_mirror_idempotent_witness :
    mirror mirrorWorldEx (1 + 1) mirrorStateEx1 "u" "r" = some ("d34db33f", mirrorStateEx1, 0) :=
  claim_C4_mirror_idempotent mirrorWorldEx 1 1 mirrorStateEx "u" "r" "d34db33f" mirrorStateEx1 1 rfl

end Rdgo
